import Mathlib

/-!
# provider-ssh: the File controller

A shallow embedding of `internal/controller/file/file.go` and
`apis/file/v1alpha1/types.go`.

* Go pointers that are mutated in place (`mg resource.Managed`) become values that
  every operation returns next to its result.
* The SSH server, the clock and the process are the environment: the remote host is a
  state of an arbitrary type `σ`, the SSH client is a record of transition functions on
  it, and every call that reaches the client is appended to a trace.
* `log.Fatal` ends the process; an operation therefore has an `Outcome`, which is either
  a return to the caller, a process exit, or a panic.
* `fmt.Printf` / `fmt.Println` lines write to standard output only and are left out.
-/

set_option autoImplicit false

namespace ProviderSSH

/-! ## Go values -/

/-- Go `[]byte`, one `Nat` below 256 per byte. -/
abbrev Bytes := List Nat

/-- Go `error` values that are not nil. `leaf` is an error made from a message
(`errors.New`, `fmt.Errorf` without `%w`, or an error of a library); `wrap` is
`errors.Wrap(cause, msg)` of `github.com/pkg/errors`. -/
inductive GoError where
  | leaf (msg : String)
  | wrap (cause : GoError) (msg : String)
  deriving DecidableEq, Repr

/-- The method `Error()`: a wrapped error prints as `msg: cause`. -/
def GoError.Error : GoError → String
  | .leaf msg => msg
  | .wrap cause msg => msg ++ ": " ++ cause.Error

/-- Go `errors.New`. -/
def errorsNew (msg : String) : GoError := .leaf msg

/-- Go `errors.Wrap` on an error that is not nil. -/
def errorsWrap (err : GoError) (msg : String) : GoError := .wrap err msg

/-- Go `strings.Join(elems, sep)`. -/
def stringsJoin : List String → String → String
  | [], _ => ""
  | [a], _ => a
  | a :: b :: rest, sep => a ++ sep ++ stringsJoin (b :: rest) sep

/-- How a call ends: it returns to its caller, or the process exits (`log.Fatal` calls
`os.Exit(1)`), or the goroutine panics. -/
inductive Outcome (α : Type) where
  | returned (a : α)
  | exited (code : Nat)
  | panicked (msg : String)
  deriving DecidableEq, Repr

/-! ## Error messages of `file.go` -/

def errNotMyType : String := "managed resource is not a MyType custom resource"
def errTrackPCUsage : String := "cannot track ProviderConfig usage"
def errGetPC : String := "cannot get ProviderConfig"
def errGetCreds : String := "cannot get credentials"
def errNewClient : String := "cannot create new Service"

/-! ## Conditions (`xpv1`) -/

/-- The type `xpv1.Condition`; `LastTransitionTime` is a number of clock ticks. -/
structure Condition where
  CondType : String
  Status : String
  LastTransitionTime : Nat
  Reason : String
  Message : String
  deriving DecidableEq, Repr

def TypeReady : String := "Ready"
def ReasonAvailable : String := "Available"
def ReasonCreating : String := "Creating"
def ReasonDeleting : String := "Deleting"
def ConditionTrue : String := "True"
def ConditionFalse : String := "False"
def ConditionUnknown : String := "Unknown"

/-- Modelled from the spec: `xpv1.Available()` of crossplane-runtime, which is not under
src/. The Available condition: the resource is ready for use. -/
def Available (now : Nat) : Condition :=
  { CondType := TypeReady, Status := ConditionTrue, LastTransitionTime := now,
    Reason := ReasonAvailable, Message := "" }

/-- Modelled from the spec: `xpv1.Creating()` of crossplane-runtime, which is not under
src/. The Creating condition: the resource is being created, not ready yet. -/
def Creating (now : Nat) : Condition :=
  { CondType := TypeReady, Status := ConditionFalse, LastTransitionTime := now,
    Reason := ReasonCreating, Message := "" }

/-- Modelled from the spec: `xpv1.Deleting()` of crossplane-runtime, which is not under
src/. The Deleting condition: the resource is being deleted, not ready. -/
def Deleting (now : Nat) : Condition :=
  { CondType := TypeReady, Status := ConditionFalse, LastTransitionTime := now,
    Reason := ReasonDeleting, Message := "" }

/-- Modelled from the spec: `Condition.Equal` of crossplane-runtime, which is not under
src/. Two conditions are the same lifecycle flag when they agree on everything but the
last-transition timestamp. -/
def Condition.Equal (c other : Condition) : Bool :=
  c.CondType == other.CondType && c.Status == other.Status &&
    c.Reason == other.Reason && c.Message == other.Message

/-- The type `xpv1.ConditionedStatus`. -/
structure ConditionedStatus where
  Conditions : List Condition
  deriving DecidableEq, Repr

/-- One pass of the inner loop of `SetConditions` for one new condition: every existing
condition of the same type is overwritten unless it is already `Equal`; the flag tells
whether a condition of that type was met. -/
def setConditionLoop (new : Condition) : List Condition → List Condition × Bool
  | [] => ([], false)
  | existing :: rest =>
    let r := setConditionLoop new rest
    if existing.CondType != new.CondType then (existing :: r.1, r.2)
    else if existing.Equal new then (existing :: r.1, true)
    else (new :: r.1, true)

/-- Modelled from the spec: `ConditionedStatus.SetConditions` of crossplane-runtime, which
is not under src/. A condition is overwritten, not appended: the status carries only the
current condition per type; a type not met before is appended. -/
def ConditionedStatus.SetConditions (s : ConditionedStatus) (c : List Condition) :
    ConditionedStatus :=
  c.foldl (fun acc new =>
    let r := setConditionLoop new acc.Conditions
    if r.2 then { Conditions := r.1 } else { Conditions := acc.Conditions ++ [new] }) s

/-- Modelled from the spec: `ConditionedStatus.GetCondition` of crossplane-runtime, which
is not under src/. The current condition of a type, or an Unknown one of that type. -/
def ConditionedStatus.GetCondition (s : ConditionedStatus) (ct : String) : Condition :=
  match s.Conditions.find? (fun c => c.CondType == ct) with
  | some c => c
  | none => { CondType := ct, Status := ConditionUnknown, LastTransitionTime := 0,
              Reason := "", Message := "" }

/-- The status carries condition `c`: its current condition of the type of `c` is `c` up
to the timestamp. -/
def ConditionedStatus.Carries (s : ConditionedStatus) (c : Condition) : Prop :=
  (s.GetCondition c.CondType).Equal c = true

instance (s : ConditionedStatus) (c : Condition) : Decidable (s.Carries c) := by
  unfold ConditionedStatus.Carries; infer_instance

/-! ## `apis/file/v1alpha1/types.go` -/

/-- The type `xpv1.Reference`. -/
structure Reference where
  Name : String
  deriving DecidableEq, Repr

/-- The type `xpv1.SecretReference`. -/
structure SecretReference where
  Name : String
  Namespace : String
  deriving DecidableEq, Repr

/-- The type `xpv1.ResourceSpec`; a nil pointer is `none`. -/
structure ResourceSpec where
  WriteConnectionSecretToReference : Option SecretReference
  ProviderConfigReference : Option Reference
  ProviderReference : Option Reference
  DeletionPolicy : String
  deriving DecidableEq, Repr

/-- The type `xpv1.ResourceStatus`. -/
structure ResourceStatus where
  ConditionedStatus : ConditionedStatus
  deriving DecidableEq, Repr

/-- FileParameters are the configurable fields of a File. -/
structure FileParameters where
  File : String
  deriving DecidableEq, Repr

/-- FileObservation are the observable fields of a File. -/
structure FileObservation where
  Status : String
  deriving DecidableEq, Repr

/-- A FileSpec defines the desired state of a File. -/
structure FileSpec where
  ResourceSpec : ResourceSpec
  ForProvider : FileParameters
  deriving DecidableEq, Repr

/-- A FileStatus represents the observed state of a File. -/
structure FileStatus where
  ResourceStatus : ResourceStatus
  AtProvider : FileObservation
  deriving DecidableEq, Repr

/-- The part of `metav1.ObjectMeta` that identifies the object. -/
structure ObjectMeta where
  Name : String
  DeletionTimestamp : Option Nat
  deriving DecidableEq, Repr

/-- A File is an example API type. -/
structure File where
  ObjectMeta : ObjectMeta
  Spec : FileSpec
  Status : FileStatus
  deriving DecidableEq, Repr

/-- The method `FileStatus.SetConditions`, promoted from the embedded
`xpv1.ResourceStatus`. -/
def FileStatus.SetConditions (s : FileStatus) (c : List Condition) : FileStatus :=
  { s with ResourceStatus := { ConditionedStatus := s.ResourceStatus.ConditionedStatus.SetConditions c } }

/-- Modelled from the spec: the generated method `File.SetConditions`
(zz_generated.managed.go, not under src/): only status is written. -/
def File.SetConditions (cr : File) (c : List Condition) : File :=
  { cr with Status := cr.Status.SetConditions c }

/-- Modelled from the spec: the generated method `File.GetProviderConfigReference`
(zz_generated.managed.go, not under src/): the reference to the credentials object. -/
def File.GetProviderConfigReference (cr : File) : Option Reference :=
  cr.Spec.ResourceSpec.ProviderConfigReference

/-- The conditions of a File. -/
def File.conditions (cr : File) : ConditionedStatus :=
  cr.Status.ResourceStatus.ConditionedStatus

/-- A `resource.Managed` value: a `*v1alpha1.File`, or a managed resource of another
kind, for which the type assertion `mg.(*v1alpha1.File)` fails. -/
inductive Managed where
  | file (cr : File)
  | other (kind : String)
  deriving DecidableEq, Repr

/-- The spec of a managed resource when it is a File. -/
def Managed.spec? : Managed → Option FileSpec
  | .file cr => some cr.Spec
  | .other _ => none

/-! ## The remote actuation channel -/

/-- The arguments of `session.RequestPty(term, h, w, modes)`; `modes` lists the entries of
the `ssh.TerminalModes` map as (opcode, value). -/
structure PtyRequest where
  term : String
  h : Nat
  w : Nat
  modes : List (Nat × Nat)
  deriving DecidableEq, Repr

/-- Opcodes of `golang.org/x/crypto/ssh` used by `SendCommands`. -/
def sshECHO : Nat := 53
def sshTTY_OP_ISPEED : Nat := 128
def sshTTY_OP_OSPEED : Nat := 129

/-- A call that reached the SSH client, in the order the calls were made. -/
inductive Event where
  | newSession
  | requestPty (req : PtyRequest)
  | output (cmd : String)
  | close
  deriving DecidableEq, Repr

/-- The behaviour of an `*ssh.Client` and of the sessions it opens, over a remote host
with states in `σ`. Each call may change the host and may fail (`some err`);
`Output` also returns the bytes the command wrote to standard output. -/
structure SSHClient (σ : Type) where
  NewSession : σ → σ × Option GoError
  RequestPty : PtyRequest → σ → σ × Option GoError
  Output : String → σ → σ × Bytes × Option GoError
  Close : σ → σ

/-- The environment a reconcile call runs in: the remote host, the reading of the clock
(`metav1.Now()`), and the calls made to the SSH client so far. -/
structure World (σ : Type) where
  host : σ
  clock : Nat
  trace : List Event

/-- The command strings that were run on the remote host, oldest first. -/
def commandsRun : List Event → List String
  | [] => []
  | .output cmd :: rest => cmd :: commandsRun rest
  | _ :: rest => commandsRun rest

/-- An ExternalClient observes, then either creates, updates, or deletes an external
resource to ensure it reflects the managed resource's desired state. -/
structure external (σ : Type) where
  sshclient : SSHClient σ

/-- The terminal modes `SendCommands` asks for: echo disabled, 14.4 kbaud both ways. -/
def terminalModes : List (Nat × Nat) :=
  [(sshECHO, 0), (sshTTY_OP_ISPEED, 14400), (sshTTY_OP_OSPEED, 14400)]

/-- The arguments of the call `session.RequestPty("xterm", 80, 40, modes)`. -/
def ptyRequest : PtyRequest :=
  { term := "xterm", h := 80, w := 40, modes := terminalModes }

/-- The deferred `session.Close()`. -/
def sessionClose {σ : Type} (e : external σ) (w : World σ) : World σ :=
  { w with host := e.sshclient.Close w.host, trace := w.trace ++ [Event.close] }

/-- The method `(e *external) SendCommands(cmds ...string) ([]byte, error)`. -/
def external.SendCommands {σ : Type} (e : external σ) (cmds : List String) (w : World σ) :
    World σ × Outcome (Bytes × Option GoError) :=
  let r1 := e.sshclient.NewSession w.host
  let w1 : World σ := { w with host := r1.1, trace := w.trace ++ [Event.newSession] }
  match r1.2 with
  | some _ => (w1, .exited 1)
  | none =>
    let r2 := e.sshclient.RequestPty ptyRequest w1.host
    let w2 : World σ :=
      { w1 with host := r2.1, trace := w1.trace ++ [Event.requestPty ptyRequest] }
    match r2.2 with
    | some err => (sessionClose e w2, .returned ([], some err))
    | none =>
      let cmd := stringsJoin cmds "; "
      let r3 := e.sshclient.Output cmd w2.host
      let w3 : World σ := { w2 with host := r3.1, trace := w2.trace ++ [Event.output cmd] }
      match r3.2.2 with
      | some err =>
        (sessionClose e w3, .returned (r3.2.1, some (.leaf
          ("failed to execute command '" ++ cmd ++ "' on server: " ++ err.Error))))
      | none => (sessionClose e w3, .returned (r3.2.1, none))

/-- The state of the remote host at which `SendCommands` runs its command when the
session opens and the pseudo-terminal is granted. -/
def hostAtCommand {σ : Type} (e : external σ) (w : World σ) : σ :=
  (e.sshclient.RequestPty ptyRequest (e.sshclient.NewSession w.host).1).1

/-! ## The external client -/

/-- The type `managed.ConnectionDetails`, a map from string to bytes, as its entries. -/
abbrev ConnectionDetails := List (String × Bytes)

/-- The type `managed.ExternalObservation`. -/
structure ExternalObservation where
  ResourceExists : Bool := false
  ResourceUpToDate : Bool := false
  ResourceLateInitialized : Bool := false
  ConnectionDetails : ConnectionDetails := []
  deriving DecidableEq, Repr

/-- The type `managed.ExternalCreation`. -/
structure ExternalCreation where
  ConnectionDetails : ConnectionDetails := []
  deriving DecidableEq, Repr

/-- The type `managed.ExternalUpdate`. -/
structure ExternalUpdate where
  ConnectionDetails : ConnectionDetails := []
  deriving DecidableEq, Repr

/-- The method `(c *external) Observe`. Returns the world after the call, the managed
resource after the call, and how the call ended. -/
def external.Observe {σ : Type} (c : external σ) (mg : Managed) (w : World σ) :
    World σ × Managed × Outcome (ExternalObservation × Option GoError) :=
  match mg with
  | .other _ => (w, mg, .returned ({}, some (errorsNew errNotMyType)))
  | .file cr =>
    let filename := cr.Spec.ForProvider.File
    match c.SendCommands ["sleep 2", "ls " ++ filename] w with
    | (w1, .exited code) => (w1, mg, .exited code)
    | (w1, .panicked msg) => (w1, mg, .panicked msg)
    | (w1, .returned (_, some _)) => (w1, mg, .returned ({ ResourceExists := false }, none))
    | (w1, .returned (_, none)) =>
      let cr1 : File := { cr with Status := cr.Status.SetConditions [Available w1.clock] }
      let cr2 : File := { cr1 with Status := { cr1.Status with AtProvider := { Status := "Available" } } }
      (w1, .file cr2, .returned
        ({ ResourceExists := true, ResourceUpToDate := true, ConnectionDetails := [] }, none))

/-- The method `(c *external) Create`. -/
def external.Create {σ : Type} (c : external σ) (mg : Managed) (w : World σ) :
    World σ × Managed × Outcome (ExternalCreation × Option GoError) :=
  match mg with
  | .other _ => (w, mg, .returned ({}, some (errorsNew errNotMyType)))
  | .file cr =>
    let filename := cr.Spec.ForProvider.File
    match c.SendCommands ["sleep 2", "touch " ++ filename] w with
    | (w1, .exited code) => (w1, mg, .exited code)
    | (w1, .panicked msg) => (w1, mg, .panicked msg)
    | (w1, .returned (_, some err)) =>
      (w1, mg, .returned ({}, some (errorsWrap err "creating file error")))
    | (w1, .returned (_, none)) =>
      let cr1 : File := { cr with Status := cr.Status.SetConditions [Creating w1.clock] }
      (w1, .file cr1, .returned ({ ConnectionDetails := [] }, none))

/-- The method `(c *external) Update`. -/
def external.Update {σ : Type} (_c : external σ) (mg : Managed) (w : World σ) :
    World σ × Managed × Outcome (ExternalUpdate × Option GoError) :=
  match mg with
  | .other _ => (w, mg, .returned ({}, some (errorsNew errNotMyType)))
  | .file _ => (w, mg, .returned ({ ConnectionDetails := [] }, none))

/-- The method `(c *external) Delete`. -/
def external.Delete {σ : Type} (c : external σ) (mg : Managed) (w : World σ) :
    World σ × Managed × Outcome (Option GoError) :=
  match mg with
  | .other _ => (w, mg, .returned (some (errorsNew errNotMyType)))
  | .file cr =>
    let cr1 := cr.SetConditions [Deleting w.clock]
    let filename := cr1.Spec.ForProvider.File
    match c.SendCommands ["sleep 2", "rm -f " ++ filename] w with
    | (w1, .exited code) => (w1, .file cr1, .exited code)
    | (w1, .panicked msg) => (w1, .file cr1, .panicked msg)
    | (w1, .returned (_, some err)) =>
      (w1, .file cr1, .returned (some (errorsWrap err "Deleting file error")))
    | (w1, .returned (_, none)) => (w1, .file cr1, .returned none)

/-! ## The connector -/

/-- Modelled from the spec: the credentials record `ProviderConfig.Spec` of
`apis/v1alpha1` (not under src/): address, principal, secret. -/
structure ProviderConfigSpec where
  IP : String
  User : String
  Password : String
  deriving DecidableEq, Repr

/-- Modelled from the spec: the type `ProviderConfig` of `apis/v1alpha1` (not under src/). -/
structure ProviderConfig where
  Spec : ProviderConfigSpec
  deriving DecidableEq, Repr

/-- The function `ssh.Dial("tcp", addr, config)` as the environment answers it, by
address, user and password. -/
abbrev Dialer (σ : Type) := String → String → String → Except GoError (SSHClient σ)

/-- A connector is expected to produce an ExternalClient when its Connect method is
called. `kube` answers `Get` of a ProviderConfig by name, `usage` answers `Track`. -/
structure connector where
  kube : String → Except GoError ProviderConfig
  usage : Managed → Option GoError

/-- The function `Connect(addr, user, password string) (*ssh.Client, error)`. -/
def Connect {σ : Type} (dial : Dialer σ) (addr user password : String) :
    Option (SSHClient σ) × Option GoError :=
  match dial addr user password with
  | .error err => (none, some err)
  | .ok conn => (some conn, none)

/-- The method `(c *connector) Connect`. -/
def connector.Connect {σ : Type} (c : connector) (dial : Dialer σ) (mg : Managed) :
    Outcome (Option (external σ) × Option GoError) :=
  match mg with
  | .other _ => .returned (none, some (errorsNew errNotMyType))
  | .file cr =>
    match c.usage mg with
    | some err => .returned (none, some (errorsWrap err errTrackPCUsage))
    | none =>
      match cr.GetProviderConfigReference with
      | none => .panicked "runtime error: invalid memory address or nil pointer dereference"
      | some ref =>
        match c.kube ref.Name with
        | .error err => .returned (none, some (errorsWrap err errGetPC))
        | .ok pc =>
          match ProviderSSH.Connect dial (pc.Spec.IP ++ ":22") pc.Spec.User pc.Spec.Password with
          | (_, some err) => .returned (none, some err)
          | (none, none) => .panicked "runtime error: invalid memory address or nil pointer dereference"
          | (some conn, none) => .returned (some { sshclient := conn }, none)

/-! ## Properties asked of the operations -/

/-- The property C9 asks of one call `SendCommands(cmds...)` in world `w`: the call runs
exactly one command on the remote host, the elements of `cmds` joined with "; "; if that
command fails the call returns its output bytes with an error that is not nil, and if it
succeeds the call returns its output bytes with a nil error. -/
def RunsJoinedOnce {σ : Type} (e : external σ) (cmds : List String) (w : World σ) : Prop :=
  commandsRun (e.SendCommands cmds w).1.trace =
      commandsRun w.trace ++ [stringsJoin cmds "; "] ∧
    (∀ err, (e.sshclient.Output (stringsJoin cmds "; ") (hostAtCommand e w)).2.2 = some err →
      ∃ err1, (e.SendCommands cmds w).2 = Outcome.returned
        ((e.sshclient.Output (stringsJoin cmds "; ") (hostAtCommand e w)).2.1, some err1)) ∧
    ((e.sshclient.Output (stringsJoin cmds "; ") (hostAtCommand e w)).2.2 = none →
      (e.SendCommands cmds w).2 = Outcome.returned
        ((e.sshclient.Output (stringsJoin cmds "; ") (hostAtCommand e w)).2.1, none))

/-- The property C5 asks of one call of Delete on the File `cr` in world `w`: on return
the object carries the Deleting condition, the call has run exactly one command on the
remote host, "sleep 2; rm -f " followed by the path, it returns, and the error it returns
is nil exactly when that command succeeded. -/
def DeleteIssuesRemoval {σ : Type} (c : external σ) (cr : File) (w : World σ) : Prop :=
  (∃ cr1, (c.Delete (Managed.file cr) w).2.1 = Managed.file cr1 ∧
      cr1.conditions.Carries (Deleting w.clock)) ∧
    commandsRun (c.Delete (Managed.file cr) w).1.trace =
      commandsRun w.trace ++ ["sleep 2; rm -f " ++ cr.Spec.ForProvider.File] ∧
    (∃ err, (c.Delete (Managed.file cr) w).2.2 = Outcome.returned err) ∧
    ((c.Delete (Managed.file cr) w).2.2 = Outcome.returned none ↔
      (c.sshclient.Output ("sleep 2; rm -f " ++ cr.Spec.ForProvider.File)
        (hostAtCommand c w)).2.2 = none)

/-- The remote-host model of the round trip for the path `p`, with `present s` saying that
`p` is present on the host in state `s`, stated over the invocations that SendCommands
issues: an invocation of "sleep 2", "touch p" (command line "sleep 2; touch p") that
succeeds leaves `p` present, and an invocation of "sleep 2", "ls p" (command line
"sleep 2; ls p") succeeds exactly when `p` is present. -/
structure RoundTripHost {σ : Type} (e : external σ) (p : String) (present : σ → Prop) :
    Prop where
  touch_present : ∀ (w w1 : World σ) (out : Bytes),
    e.SendCommands ["sleep 2", "touch " ++ p] w = (w1, Outcome.returned (out, none)) →
      present w1.host
  ls_iff : ∀ w : World σ,
    (∃ (w1 : World σ) (out : Bytes),
      e.SendCommands ["sleep 2", "ls " ++ p] w = (w1, Outcome.returned (out, none))) ↔
      present w.host

/-- A host reached over a reliable channel: sessions open, the pseudo-terminal is granted,
and neither they nor closing a session remove the path `p`; a successful
"sleep 2; touch p" makes `p` present, and "sleep 2; ls p" succeeds exactly when `p` is
present. -/
structure ReliablePathHost {σ : Type} (e : external σ) (p : String) (present : σ → Prop) :
    Prop where
  session_ok : ∀ s, (e.sshclient.NewSession s).2 = none
  session_keeps : ∀ s, present s ↔ present (e.sshclient.NewSession s).1
  pty_ok : ∀ req s, (e.sshclient.RequestPty req s).2 = none
  pty_keeps : ∀ req s, present s ↔ present (e.sshclient.RequestPty req s).1
  close_keeps : ∀ s, present s → present (e.sshclient.Close s)
  touch_present : ∀ s, (e.sshclient.Output ("sleep 2; touch " ++ p) s).2.2 = none →
    present (e.sshclient.Output ("sleep 2; touch " ++ p) s).1
  ls_iff : ∀ s, (e.sshclient.Output ("sleep 2; ls " ++ p) s).2.2 = none ↔ present s

/-! ## Concrete hosts and objects -/

/-- A remote host that keeps a set of paths, reached over a channel that never fails:
`touch p` adds `p`, `ls p` succeeds exactly when `p` is present and prints nothing else
than the path, `rm -f p` removes `p`; any other command line is rejected by the shell. -/
def pathClient (p : String) : SSHClient (List String) where
  NewSession := fun s => (s, none)
  RequestPty := fun _ s => (s, none)
  Output := fun cmd s =>
    if cmd = "sleep 2; touch " ++ p then (p :: s, [], none)
    else if cmd = "sleep 2; ls " ++ p then
      (if p ∈ s then (s, [47], none) else (s, [], some (GoError.leaf "Process exited with status 2")))
    else if cmd = "sleep 2; rm -f " ++ p then (s.filter (fun q => q != p), [], none)
    else (s, [], some (GoError.leaf "Process exited with status 127"))
  Close := fun s => s

/-- A channel on which the server refuses the pseudo-terminal; a command, were it run,
would print the byte 111 and succeed. -/
def noPtyClient : SSHClient Unit where
  NewSession := fun s => (s, none)
  RequestPty := fun _ s => (s, some (GoError.leaf "ssh: pty-req failed"))
  Output := fun _ s => (s, [111], none)
  Close := fun s => s

/-- A channel on which no session can be opened. -/
def noSessionClient : SSHClient Unit where
  NewSession := fun s => (s, some (GoError.leaf "ssh: unexpected packet in response to channel open"))
  RequestPty := fun _ s => (s, none)
  Output := fun _ s => (s, [], none)
  Close := fun s => s

/-- A channel on which every command prints the byte 7 and then fails. -/
def failingClient : SSHClient Unit where
  NewSession := fun s => (s, none)
  RequestPty := fun _ s => (s, none)
  Output := fun _ s => (s, [7], some (GoError.leaf "Process exited with status 1"))
  Close := fun s => s

/-- The object of Scenario A: `forProvider.file = "/tmp/a"`, no prior status. -/
def fileA : File where
  ObjectMeta := { Name := "a", DeletionTimestamp := none }
  Spec := { ResourceSpec := { WriteConnectionSecretToReference := none,
                              ProviderConfigReference := some { Name := "default" },
                              ProviderReference := none,
                              DeletionPolicy := "Delete" },
            ForProvider := { File := "/tmp/a" } }
  Status := { ResourceStatus := { ConditionedStatus := { Conditions := [] } },
              AtProvider := { Status := "" } }

/-- A world at clock reading 5 with nothing in its trace. -/
def world0 {σ : Type} (s : σ) : World σ := { host := s, clock := 5, trace := [] }

/-- A connector whose usage tracker and config store answer without error. -/
def goodConnector : connector where
  kube := fun _ => .ok { Spec := { IP := "10.0.0.7", User := "root", Password := "secret" } }
  usage := fun _ => none

/-- The error of a dial that is rejected. -/
def dialError : GoError :=
  GoError.leaf "ssh: handshake failed: ssh: unable to authenticate"

/-- A network on which every dial is rejected. -/
def rejectingDialer : Dialer Unit := fun _ _ _ => .error dialError

/-! ## Lemmas on conditions -/

theorem Condition.Equal_self (c : Condition) : c.Equal c = true := by
  simp [Condition.Equal]

theorem setConditionLoop_found (new : Condition) (l : List Condition)
    (h : (setConditionLoop new l).2 = true) :
    ∃ c, (setConditionLoop new l).1.find? (fun c => c.CondType == new.CondType) = some c ∧
      c.Equal new = true := by
  induction l with
  | nil => simp [setConditionLoop] at h
  | cons existing rest ih =>
    simp only [setConditionLoop] at h ⊢
    by_cases ht : existing.CondType = new.CondType
    · by_cases he : existing.Equal new = true
      · exact ⟨existing, by simp [ht, he], he⟩
      · exact ⟨new, by simp [ht, he], Condition.Equal_self new⟩
    · have hne : (existing.CondType != new.CondType) = true := by simpa using ht
      simp only [hne, if_true] at h ⊢
      obtain ⟨c, hc, hEq⟩ := ih h
      exact ⟨c, by simp [List.find?_cons, ht, hc], hEq⟩

theorem setConditionLoop_absent (new : Condition) (l : List Condition)
    (h : (setConditionLoop new l).2 = false) :
    l.find? (fun c => c.CondType == new.CondType) = none := by
  induction l with
  | nil => rfl
  | cons existing rest ih =>
    simp only [setConditionLoop] at h
    by_cases ht : existing.CondType = new.CondType
    · by_cases he : existing.Equal new = true <;> simp [ht, he] at h
    · have hne : (existing.CondType != new.CondType) = true := by simpa using ht
      simp only [hne, if_true] at h
      simp [List.find?_cons, ht, ih h]

/-- After `SetConditions(c)` the status carries `c`. -/
theorem SetConditions_carries (s : ConditionedStatus) (c : Condition) :
    (s.SetConditions [c]).Carries c := by
  unfold ConditionedStatus.Carries ConditionedStatus.GetCondition
    ConditionedStatus.SetConditions
  simp only [List.foldl_cons, List.foldl_nil]
  cases h : (setConditionLoop c s.Conditions).2 with
  | true =>
    obtain ⟨e, he, hEq⟩ := setConditionLoop_found c s.Conditions h
    simp [he, hEq]
  | false =>
    have hnone := setConditionLoop_absent c s.Conditions h
    simp [List.find?_append, hnone, Condition.Equal_self]

/-! ## Lemmas on the channel -/

theorem commandsRun_append (a b : List Event) :
    commandsRun (a ++ b) = commandsRun a ++ commandsRun b := by
  induction a with
  | nil => rfl
  | cons ev rest ih => cases ev <;> simp [commandsRun, ih]

/-- What `SendCommands` does when the session opens and the pseudo-terminal is granted. -/
theorem SendCommands_of_pty {σ : Type} (e : external σ) (cmds : List String) (w : World σ)
    (hNew : (e.sshclient.NewSession w.host).2 = none)
    (hPty : (e.sshclient.RequestPty ptyRequest (e.sshclient.NewSession w.host).1).2 = none) :
    e.SendCommands cmds w =
      ({ host := e.sshclient.Close
            (e.sshclient.Output (stringsJoin cmds "; ") (hostAtCommand e w)).1,
         clock := w.clock,
         trace := w.trace ++ [Event.newSession] ++ [Event.requestPty ptyRequest] ++
            [Event.output (stringsJoin cmds "; ")] ++ [Event.close] },
       Outcome.returned
        ((e.sshclient.Output (stringsJoin cmds "; ") (hostAtCommand e w)).2.1,
         (e.sshclient.Output (stringsJoin cmds "; ") (hostAtCommand e w)).2.2.map
            (fun err => GoError.leaf ("failed to execute command '" ++
              stringsJoin cmds "; " ++ "' on server: " ++ err.Error)))) := by
  unfold external.SendCommands
  simp only [hNew, hPty, hostAtCommand, sessionClose]
  cases h : (e.sshclient.Output (stringsJoin cmds "; ")
      (e.sshclient.RequestPty ptyRequest (e.sshclient.NewSession w.host).1).1).2.2 <;> simp

/-- The only results `SendCommands` has. -/
theorem SendCommands_never_panics {σ : Type} (e : external σ) (cmds : List String)
    (w w1 : World σ) (msg : String) : e.SendCommands cmds w ≠ (w1, Outcome.panicked msg) := by
  unfold external.SendCommands
  intro h
  simp only at h
  split at h
  · simp at h
  · split at h
    · simp at h
    · split at h <;> simp at h

/-- What Observe does when its presence check succeeds. -/
theorem Observe_of_check_success {σ : Type} (c : external σ) (cr : File)
    (w w1 : World σ) (out : Bytes)
    (h : c.SendCommands ["sleep 2", "ls " ++ cr.Spec.ForProvider.File] w =
      (w1, Outcome.returned (out, none))) :
    c.Observe (Managed.file cr) w =
      (w1,
       Managed.file { cr with Status := { cr.Status.SetConditions [Available w1.clock] with
          AtProvider := { Status := "Available" } } },
       Outcome.returned
        ({ ResourceExists := true, ResourceUpToDate := true, ConnectionDetails := [] },
          none)) := by
  unfold external.Observe
  simp only [h]

/-! ## Observe -/

/-- C1: whenever the presence check `SendCommands("sleep 2", "ls " + file)` issued by
Observe returns an execution error, Observe returns an observation with
`ResourceExists = false` and a nil error: the failed check is reported as absence. The
object is left as it was. -/
theorem Observe_check_error_is_absence {σ : Type} (c : external σ) (cr : File)
    (w w1 : World σ) (out : Bytes) (err : GoError)
    (h : c.SendCommands ["sleep 2", "ls " ++ cr.Spec.ForProvider.File] w =
      (w1, Outcome.returned (out, some err))) :
    c.Observe (Managed.file cr) w =
      (w1, Managed.file cr, Outcome.returned ({ ResourceExists := false }, none)) := by
  unfold external.Observe
  simp only [h]

theorem Observe_check_error_is_absence_witness :
    (external.mk failingClient).SendCommands ["sleep 2", "ls " ++ fileA.Spec.ForProvider.File]
        (world0 ()) =
      ({ host := (), clock := 5,
         trace := [Event.newSession, Event.requestPty ptyRequest,
                   Event.output "sleep 2; ls /tmp/a", Event.close] },
       Outcome.returned ([7], some (GoError.leaf
        "failed to execute command 'sleep 2; ls /tmp/a' on server: Process exited with status 1"))) ∧
    (external.mk failingClient).Observe (Managed.file fileA) (world0 ()) =
      ({ host := (), clock := 5,
         trace := [Event.newSession, Event.requestPty ptyRequest,
                   Event.output "sleep 2; ls /tmp/a", Event.close] },
       Managed.file fileA, Outcome.returned ({ ResourceExists := false }, none)) :=
  ⟨rfl, Observe_check_error_is_absence (external.mk failingClient) fileA (world0 ()) _ _ _
    rfl⟩

/-- C3: whenever the presence check issued by Observe succeeds, Observe returns
`ResourceExists = true`, `ResourceUpToDate = true`, empty connection details and a nil
error, and on return the object carries the Available condition and
`status.atProvider.status` is "Available". -/
theorem Observe_check_success_is_available {σ : Type} (c : external σ) (cr : File)
    (w w1 : World σ) (out : Bytes)
    (h : c.SendCommands ["sleep 2", "ls " ++ cr.Spec.ForProvider.File] w =
      (w1, Outcome.returned (out, none))) :
    ∃ cr1 : File,
      c.Observe (Managed.file cr) w =
        (w1, Managed.file cr1, Outcome.returned
          ({ ResourceExists := true, ResourceUpToDate := true, ConnectionDetails := [] },
            none)) ∧
      cr1.conditions.Carries (Available w1.clock) ∧
      cr1.Status.AtProvider.Status = "Available" := by
  exact ⟨_, Observe_of_check_success c cr w w1 out h, SetConditions_carries _ _, rfl⟩

theorem Observe_check_success_is_available_witness :
    (external.mk (pathClient "/tmp/a")).SendCommands
        ["sleep 2", "ls " ++ fileA.Spec.ForProvider.File] (world0 ["/tmp/a"]) =
      ({ host := ["/tmp/a"], clock := 5,
         trace := [Event.newSession, Event.requestPty ptyRequest,
                   Event.output "sleep 2; ls /tmp/a", Event.close] },
       Outcome.returned ([47], none)) ∧
    ∃ cr1 : File,
      (external.mk (pathClient "/tmp/a")).Observe (Managed.file fileA) (world0 ["/tmp/a"]) =
        ({ host := ["/tmp/a"], clock := 5,
           trace := [Event.newSession, Event.requestPty ptyRequest,
                     Event.output "sleep 2; ls /tmp/a", Event.close] },
         Managed.file cr1, Outcome.returned
          ({ ResourceExists := true, ResourceUpToDate := true, ConnectionDetails := [] },
            none)) ∧
      cr1.conditions.Carries (Available 5) ∧
      cr1.Status.AtProvider.Status = "Available" :=
  ⟨rfl, Observe_check_success_is_available (external.mk (pathClient "/tmp/a")) fileA
    (world0 ["/tmp/a"]) _ [47] rfl⟩

/-! ## Update -/

/-- C10: Update is a no-op that succeeds unconditionally: for every File object and every
world it returns a nil error with empty connection details, makes no call to the SSH
client (the world, and with it the trace of remote commands, is unchanged) and leaves the
object, spec and status, unchanged. -/
theorem Update_is_noop {σ : Type} (c : external σ) (cr : File) (w : World σ) :
    c.Update (Managed.file cr) w =
        (w, Managed.file cr, Outcome.returned ({ ConnectionDetails := [] }, none)) ∧
      commandsRun (c.Update (Managed.file cr) w).1.trace = commandsRun w.trace :=
  ⟨rfl, rfl⟩

/-! ## The frame of the four operations -/

/-- C6: the spec of the desired-state object is never mutated: whatever the remote
channel does and however the call ends, the object that Observe, Create, Update and
Delete leave behind has the Spec it had on entry. -/
theorem Spec_never_mutated {σ : Type} (c : external σ) (cr : File) (w : World σ) :
    (c.Observe (Managed.file cr) w).2.1.spec? = some cr.Spec ∧
      (c.Create (Managed.file cr) w).2.1.spec? = some cr.Spec ∧
      (c.Update (Managed.file cr) w).2.1.spec? = some cr.Spec ∧
      (c.Delete (Managed.file cr) w).2.1.spec? = some cr.Spec := by
  refine ⟨?_, ?_, rfl, ?_⟩
  · unfold external.Observe
    simp only
    split <;> rfl
  · unfold external.Create
    simp only
    split <;> rfl
  · unfold external.Delete
    simp only
    split <;> rfl

/-! ## Create -/

/-- The two ways Create returns: on an execution error it returns the error wrapped with
"creating file error" and leaves the object as it was; on success it returns a nil error
and the object carries the Creating condition, set after the command. -/
theorem Create_outcomes {σ : Type} (c : external σ) (cr : File) (w w1 : World σ)
    (out : Bytes) :
    (∀ err, c.SendCommands ["sleep 2", "touch " ++ cr.Spec.ForProvider.File] w =
        (w1, Outcome.returned (out, some err)) →
      c.Create (Managed.file cr) w =
        (w1, Managed.file cr,
          Outcome.returned ({}, some (errorsWrap err "creating file error")))) ∧
      (c.SendCommands ["sleep 2", "touch " ++ cr.Spec.ForProvider.File] w =
        (w1, Outcome.returned (out, none)) →
      c.Create (Managed.file cr) w =
        (w1, Managed.file { cr with Status := cr.Status.SetConditions [Creating w1.clock] },
          Outcome.returned ({ ConnectionDetails := [] }, none))) := by
  constructor
  · intro err h
    unfold external.Create
    simp only [h]
  · intro h
    unfold external.Create
    simp only [h]

/-- C2: where the creation command fails, Create returns the wrapped execution error and
leaves the status as it was, without any condition: the Creating condition is set only
after the command, and only when it succeeded. -/
theorem Create_failure_sets_no_condition :
    (external.mk failingClient).Create (Managed.file fileA) (world0 ()) =
        ({ host := (), clock := 5,
           trace := [Event.newSession, Event.requestPty ptyRequest,
                     Event.output "sleep 2; touch /tmp/a", Event.close] },
         Managed.file fileA,
         Outcome.returned ({}, some (GoError.wrap (GoError.leaf
          "failed to execute command 'sleep 2; touch /tmp/a' on server: Process exited with status 1")
          "creating file error"))) ∧
      fileA.conditions.Conditions = [] ∧
      ¬ fileA.conditions.Carries (Creating 5) :=
  ⟨rfl, rfl, by decide⟩

/-! ## Failures of the channel -/

/-- The two failures that SendCommands does hand to its caller: a refused pseudo-terminal
gives empty output and the error of the refusal, a failed command gives the output of the
command and an error that quotes the command line. -/
theorem SendCommands_failures_returned {σ : Type} (e : external σ) (cmds : List String)
    (w : World σ) (hNew : (e.sshclient.NewSession w.host).2 = none) :
    (∀ err, (e.sshclient.RequestPty ptyRequest (e.sshclient.NewSession w.host).1).2 =
        some err → (e.SendCommands cmds w).2 = Outcome.returned ([], some err)) ∧
      (∀ err, (e.sshclient.RequestPty ptyRequest (e.sshclient.NewSession w.host).1).2 =
          none →
        (e.sshclient.Output (stringsJoin cmds "; ") (hostAtCommand e w)).2.2 = some err →
        (e.SendCommands cmds w).2 = Outcome.returned
          ((e.sshclient.Output (stringsJoin cmds "; ") (hostAtCommand e w)).2.1,
            some (GoError.leaf ("failed to execute command '" ++ stringsJoin cmds "; " ++
              "' on server: " ++ err.Error)))) := by
  constructor
  · intro err hPty
    unfold external.SendCommands
    simp only [hNew, hPty]
  · intro err hPty hOut
    rw [SendCommands_of_pty e cmds w hNew hPty, hOut]
    rfl

/-- C7: where the session cannot be opened, SendCommands does not return an error to its
caller: `log.Fatal` ends the process with exit status 1, before any command is run. -/
theorem SendCommands_session_failure_exits :
    (external.mk noSessionClient).SendCommands ["sleep 2", "ls /tmp/a"] (world0 ()) =
      ({ host := (), clock := 5, trace := [Event.newSession] }, Outcome.exited 1) :=
  rfl

/-! ## Connect -/

/-- C8: where the SSH dial fails, connector.Connect returns the dial error itself, not
wrapped with any operation message. -/
theorem Connect_dial_error_is_raw :
    goodConnector.Connect rejectingDialer (Managed.file fileA) =
        Outcome.returned (none, some dialError) ∧
      ∀ msg : String, dialError ≠ errorsWrap dialError msg := by
  refine ⟨rfl, ?_⟩
  intro msg h
  simp [dialError, errorsWrap] at h

/-! ## SendCommands -/

theorem stringsJoin_pair (a b sep : String) : stringsJoin [a, b] sep = a ++ sep ++ b := rfl

/-- C9, counterexample: on a channel that refuses the pseudo-terminal, SendCommands runs
no command at all and returns empty output with the error of the refusal. -/
theorem SendCommands_pty_failure_runs_nothing :
    commandsRun ((external.mk noPtyClient).SendCommands ["sleep 2", "ls /tmp/a"]
        (world0 ())).1.trace = [] ∧
      ((external.mk noPtyClient).SendCommands ["sleep 2", "ls /tmp/a"] (world0 ())).2 =
        Outcome.returned ([], some (GoError.leaf "ssh: pty-req failed")) ∧
      ¬ RunsJoinedOnce (external.mk noPtyClient) ["sleep 2", "ls /tmp/a"] (world0 ()) := by
  refine ⟨rfl, rfl, ?_⟩
  intro h
  have h1 := h.1
  revert h1
  decide

/-- C9, amended: when the session opens and the pseudo-terminal request is granted,
SendCommands runs exactly one command on the remote host, the elements of `cmds` joined in
order with "; "; when that command fails it returns the output bytes the command produced
with an error that is not nil, and when it succeeds it returns the output with a nil
error. -/
theorem SendCommands_runs_joined_once {σ : Type} (e : external σ) (cmds : List String)
    (w : World σ)
    (hNew : (e.sshclient.NewSession w.host).2 = none)
    (hPty : (e.sshclient.RequestPty ptyRequest (e.sshclient.NewSession w.host).1).2 = none) :
    RunsJoinedOnce e cmds w := by
  unfold RunsJoinedOnce
  rw [SendCommands_of_pty e cmds w hNew hPty]
  refine ⟨?_, ?_, ?_⟩
  · simp [commandsRun_append, commandsRun]
  · intro err herr
    exact ⟨GoError.leaf ("failed to execute command '" ++ stringsJoin cmds "; " ++
      "' on server: " ++ err.Error), by simp [herr]⟩
  · intro hnone
    simp [hnone]

theorem SendCommands_runs_joined_once_witness :
    ((failingClient.NewSession (world0 ()).host).2 = none ∧
      (failingClient.RequestPty ptyRequest
        (failingClient.NewSession (world0 ()).host).1).2 = none) ∧
    RunsJoinedOnce (external.mk failingClient) ["sleep 2", "ls /tmp/a"] (world0 ()) :=
  ⟨⟨rfl, rfl⟩,
    SendCommands_runs_joined_once (external.mk failingClient) ["sleep 2", "ls /tmp/a"]
      (world0 ()) rfl rfl⟩

/-! ## Delete -/

/-- Delete sets the Deleting condition before it calls the channel: the object carries it
however the call ends. -/
theorem Delete_sets_Deleting_first {σ : Type} (c : external σ) (cr : File) (w : World σ) :
    (c.Delete (Managed.file cr) w).2.1 = Managed.file (cr.SetConditions [Deleting w.clock]) ∧
      (cr.SetConditions [Deleting w.clock]).conditions.Carries (Deleting w.clock) := by
  refine ⟨?_, SetConditions_carries _ _⟩
  unfold external.Delete
  simp only
  split <;> rfl

/-- C5, counterexample: on a channel that refuses the pseudo-terminal, Delete runs no
command on the remote host and returns an error, although the removal command would have
succeeded. -/
theorem Delete_pty_failure_runs_nothing :
    commandsRun ((external.mk noPtyClient).Delete (Managed.file fileA)
        (world0 ())).1.trace = [] ∧
      ((external.mk noPtyClient).Delete (Managed.file fileA) (world0 ())).2.2 =
        Outcome.returned (some (GoError.wrap (GoError.leaf "ssh: pty-req failed")
          "Deleting file error")) ∧
      ¬ DeleteIssuesRemoval (external.mk noPtyClient) fileA (world0 ()) := by
  refine ⟨rfl, rfl, ?_⟩
  intro h
  have h1 := h.2.1
  revert h1
  decide

/-- C5, amended: for every File object, when the session opens and the pseudo-terminal
request is granted, Delete sets the Deleting condition on the object and then runs exactly
one command on the remote host, "sleep 2; rm -f " followed by `spec.forProvider.file`;
Delete returns nil exactly when that command succeeds, and the Deleting condition is set
on return in both cases. -/
theorem Delete_issues_removal {σ : Type} (c : external σ) (cr : File) (w : World σ)
    (hNew : (c.sshclient.NewSession w.host).2 = none)
    (hPty : (c.sshclient.RequestPty ptyRequest (c.sshclient.NewSession w.host).1).2 = none) :
    DeleteIssuesRemoval c cr w := by
  have hfile : (cr.SetConditions [Deleting w.clock]).Spec.ForProvider.File =
      cr.Spec.ForProvider.File := rfl
  have hsend := SendCommands_of_pty c ["sleep 2", "rm -f " ++ cr.Spec.ForProvider.File] w
    hNew hPty
  have hjoin : stringsJoin ["sleep 2", "rm -f " ++ cr.Spec.ForProvider.File] "; " =
      "sleep 2; rm -f " ++ cr.Spec.ForProvider.File := by
    rw [stringsJoin_pair, ← String.append_assoc]
    rfl
  rw [hjoin] at hsend
  unfold DeleteIssuesRemoval external.Delete
  simp only [hfile, hsend]
  cases ho : (c.sshclient.Output ("sleep 2; rm -f " ++ cr.Spec.ForProvider.File)
      (hostAtCommand c w)).2.2 with
  | none =>
    refine ⟨⟨_, rfl, SetConditions_carries _ _⟩, ?_, ⟨_, rfl⟩, ?_⟩
    · simp [commandsRun_append, commandsRun]
    · simp
  | some err =>
    refine ⟨⟨_, rfl, SetConditions_carries _ _⟩, ?_, ⟨_, rfl⟩, ?_⟩
    · simp [commandsRun_append, commandsRun]
    · simp

theorem Delete_issues_removal_witness :
    (((pathClient "/tmp/a").NewSession (world0 ["/tmp/a"]).host).2 = none ∧
      ((pathClient "/tmp/a").RequestPty ptyRequest
        ((pathClient "/tmp/a").NewSession (world0 ["/tmp/a"]).host).1).2 = none) ∧
    DeleteIssuesRemoval (external.mk (pathClient "/tmp/a")) fileA (world0 ["/tmp/a"]) :=
  ⟨⟨rfl, rfl⟩,
    Delete_issues_removal (external.mk (pathClient "/tmp/a")) fileA (world0 ["/tmp/a"])
      rfl rfl⟩

/-! ## A refused pseudo-terminal, in general -/

/-- When the session opens and the pseudo-terminal request is refused, SendCommands runs
no command on the remote host, closes the session, and returns empty output with the
error of the refusal. -/
theorem SendCommands_pty_refused {σ : Type} (e : external σ) (cmds : List String)
    (w : World σ) (err : GoError)
    (hNew : (e.sshclient.NewSession w.host).2 = none)
    (hPty : (e.sshclient.RequestPty ptyRequest (e.sshclient.NewSession w.host).1).2 =
      some err) :
    e.SendCommands cmds w =
        ({ host := e.sshclient.Close (hostAtCommand e w), clock := w.clock,
           trace := w.trace ++ [Event.newSession] ++ [Event.requestPty ptyRequest] ++
              [Event.close] },
         Outcome.returned ([], some err)) ∧
      commandsRun (e.SendCommands cmds w).1.trace = commandsRun w.trace := by
  have h : e.SendCommands cmds w =
      ({ host := e.sshclient.Close (hostAtCommand e w), clock := w.clock,
         trace := w.trace ++ [Event.newSession] ++ [Event.requestPty ptyRequest] ++
            [Event.close] },
       Outcome.returned ([], some err)) := by
    unfold external.SendCommands
    simp only [hNew, hPty, hostAtCommand, sessionClose]
  refine ⟨h, ?_⟩
  rw [h]
  simp [commandsRun_append, commandsRun]

/-- When the session opens and the pseudo-terminal request is refused, Delete runs no
command on the remote host and returns the refusal wrapped with "Deleting file error",
with the Deleting condition set. -/
theorem Delete_pty_refused {σ : Type} (c : external σ) (cr : File) (w : World σ)
    (err : GoError)
    (hNew : (c.sshclient.NewSession w.host).2 = none)
    (hPty : (c.sshclient.RequestPty ptyRequest (c.sshclient.NewSession w.host).1).2 =
      some err) :
    commandsRun (c.Delete (Managed.file cr) w).1.trace = commandsRun w.trace ∧
      (c.Delete (Managed.file cr) w).2.1 =
        Managed.file (cr.SetConditions [Deleting w.clock]) ∧
      (cr.SetConditions [Deleting w.clock]).conditions.Carries (Deleting w.clock) ∧
      (c.Delete (Managed.file cr) w).2.2 =
        Outcome.returned (some (errorsWrap err "Deleting file error")) := by
  have hfile : (cr.SetConditions [Deleting w.clock]).Spec.ForProvider.File =
      cr.Spec.ForProvider.File := rfl
  have hsend := (SendCommands_pty_refused c
    ["sleep 2", "rm -f " ++ cr.Spec.ForProvider.File] w err hNew hPty).1
  unfold external.Delete
  simp only [hfile, hsend]
  refine ⟨?_, trivial, SetConditions_carries _ _, trivial⟩
  simp [commandsRun_append, commandsRun]

/-- Only the status is written: the object that Observe, Create, Update and Delete leave
behind is a File with the metadata and the spec it had on entry. -/
theorem Only_status_written {σ : Type} (c : external σ) (cr : File) (w : World σ) :
    (∃ cr1, (c.Observe (Managed.file cr) w).2.1 = Managed.file cr1 ∧
        cr1.ObjectMeta = cr.ObjectMeta ∧ cr1.Spec = cr.Spec) ∧
      (∃ cr1, (c.Create (Managed.file cr) w).2.1 = Managed.file cr1 ∧
        cr1.ObjectMeta = cr.ObjectMeta ∧ cr1.Spec = cr.Spec) ∧
      (∃ cr1, (c.Update (Managed.file cr) w).2.1 = Managed.file cr1 ∧
        cr1.ObjectMeta = cr.ObjectMeta ∧ cr1.Spec = cr.Spec) ∧
      (∃ cr1, (c.Delete (Managed.file cr) w).2.1 = Managed.file cr1 ∧
        cr1.ObjectMeta = cr.ObjectMeta ∧ cr1.Spec = cr.Spec) := by
  refine ⟨?_, ?_, ⟨cr, rfl, rfl, rfl⟩, ?_⟩
  · unfold external.Observe
    simp only
    split <;> exact ⟨_, rfl, rfl, rfl⟩
  · unfold external.Create
    simp only
    split <;> exact ⟨_, rfl, rfl, rfl⟩
  · unfold external.Delete
    simp only
    split <;> exact ⟨_, rfl, rfl, rfl⟩

/-! ## Round trip of Create and Observe -/

theorem ls_ne_touch (p : String) : "sleep 2; ls " ++ p ≠ "sleep 2; touch " ++ p := by
  intro h
  have h2 := congrArg String.data h
  simp only [String.data_append] at h2
  have h3 := congrArg (fun l => l.get? 9) h2
  simp at h3

/-- The host `pathClient p` is reached over a reliable channel, and on it
"sleep 2; touch p" always succeeds. -/
theorem pathClient_model (p : String) :
    ReliablePathHost (external.mk (pathClient p)) p (fun s => p ∈ s) ∧
      ∀ s, ((pathClient p).Output ("sleep 2; touch " ++ p) s).2.2 = none := by
  refine ⟨⟨fun _ => rfl, fun _ => Iff.rfl, fun _ _ => rfl, fun _ _ => Iff.rfl,
    fun _ h => h, ?_, ?_⟩, ?_⟩
  · intro s _
    simp [pathClient]
  · intro s
    by_cases hp : p ∈ s <;> simp [pathClient, ls_ne_touch, hp]
  · intro s
    simp [pathClient]

/-- A host reached over a reliable channel is a model of the round trip. -/
theorem ReliablePathHost.roundTrip {σ : Type} (e : external σ) (p : String)
    (present : σ → Prop) (hm : ReliablePathHost e p present) : RoundTripHost e p present := by
  have hjoinT : stringsJoin ["sleep 2", "touch " ++ p] "; " = "sleep 2; touch " ++ p := by
    rw [stringsJoin_pair, ← String.append_assoc]
    rfl
  have hjoinL : stringsJoin ["sleep 2", "ls " ++ p] "; " = "sleep 2; ls " ++ p := by
    rw [stringsJoin_pair, ← String.append_assoc]
    rfl
  constructor
  · intro w w1 out h
    have hsend := SendCommands_of_pty e ["sleep 2", "touch " ++ p] w
      (hm.session_ok _) (hm.pty_ok _ _)
    rw [hjoinT, h] at hsend
    simp only [Prod.mk.injEq, Outcome.returned.injEq] at hsend
    obtain ⟨hw1, -, hnone⟩ := hsend
    rw [hw1]
    exact hm.close_keeps _ (hm.touch_present _ (Option.map_eq_none'.1 hnone.symm))
  · intro w
    have hsend := SendCommands_of_pty e ["sleep 2", "ls " ++ p] w
      (hm.session_ok _) (hm.pty_ok _ _)
    rw [hjoinL] at hsend
    have hhost : present (hostAtCommand e w) ↔ present w.host :=
      ((hm.session_keeps _).trans (hm.pty_keeps ptyRequest _)).symm
    constructor
    · rintro ⟨w1, out, h⟩
      rw [h] at hsend
      simp only [Prod.mk.injEq, Outcome.returned.injEq] at hsend
      obtain ⟨-, -, hnone⟩ := hsend
      exact hhost.1 ((hm.ls_iff _).1 (Option.map_eq_none'.1 hnone.symm))
    · intro hpres
      have hls := (hm.ls_iff _).2 (hhost.2 hpres)
      rw [hls, Option.map_none'] at hsend
      exact ⟨_, _, hsend⟩

/-- C4: over a remote host on which an invocation "sleep 2; touch p" that succeeds makes
the path `p` present and the invocation "sleep 2; ls p" succeeds exactly when `p` is
present, for every File with `spec.forProvider.file = p`: if Create returns without
error, the object carries the Creating condition, and an Observe that follows immediately
on the same object (at any clock reading `t`) returns `ResourceExists = true` with a nil
error and leaves the object carrying the Available condition. -/
theorem Create_then_Observe_exists {σ : Type} (e : external σ) (p : String)
    (present : σ → Prop) (hm : RoundTripHost e p present) (cr : File)
    (hp : cr.Spec.ForProvider.File = p) (w w1 : World σ) (mg1 : Managed)
    (cre : ExternalCreation) (t : Nat)
    (hCreate : e.Create (Managed.file cr) w = (w1, mg1, Outcome.returned (cre, none))) :
    ∃ (cr1 : File) (w2 : World σ) (cr2 : File),
      mg1 = Managed.file cr1 ∧ cr1.conditions.Carries (Creating w1.clock) ∧
      e.Observe mg1 { w1 with clock := t } =
        (w2, Managed.file cr2, Outcome.returned
          ({ ResourceExists := true, ResourceUpToDate := true, ConnectionDetails := [] },
            none)) ∧
      cr2.conditions.Carries (Available t) := by
  rcases hsend : e.SendCommands ["sleep 2", "touch " ++ p] w with ⟨w', o⟩
  unfold external.Create at hCreate
  simp only [hp, hsend] at hCreate
  cases o with
  | exited code => simp at hCreate
  | panicked msg => simp at hCreate
  | returned r =>
    obtain ⟨out, err⟩ := r
    cases err with
    | some err => simp at hCreate
    | none =>
      simp only [Prod.mk.injEq] at hCreate
      obtain ⟨hw1, hmg1, -⟩ := hCreate
      subst hw1
      subst hmg1
      have hpres : present w'.host := hm.touch_present w w' out hsend
      obtain ⟨w2, out2, hls⟩ := (hm.ls_iff { w' with clock := t }).2 hpres
      have hobs := Observe_of_check_success e
        { cr with Status := cr.Status.SetConditions [Creating w'.clock] }
        { w' with clock := t } w2 out2 (by rw [hp]; exact hls)
      exact ⟨_, _, _, rfl, SetConditions_carries _ _, hobs, SetConditions_carries _ _⟩

theorem Create_then_Observe_exists_witness :
    RoundTripHost (external.mk (pathClient "/tmp/a")) "/tmp/a" (fun s => "/tmp/a" ∈ s) ∧
    fileA.Spec.ForProvider.File = "/tmp/a" ∧
    (external.mk (pathClient "/tmp/a")).Create (Managed.file fileA) (world0 []) =
      ({ host := ["/tmp/a"], clock := 5,
         trace := [Event.newSession, Event.requestPty ptyRequest,
                   Event.output "sleep 2; touch /tmp/a", Event.close] },
       Managed.file (fileA.SetConditions [Creating 5]),
       Outcome.returned ({ ConnectionDetails := [] }, none)) ∧
    ∃ (cr1 : File) (w2 : World (List String)) (cr2 : File),
      Managed.file (fileA.SetConditions [Creating 5]) = Managed.file cr1 ∧
      cr1.conditions.Carries (Creating 5) ∧
      (external.mk (pathClient "/tmp/a")).Observe
          (Managed.file (fileA.SetConditions [Creating 5]))
          { host := ["/tmp/a"], clock := 9,
            trace := [Event.newSession, Event.requestPty ptyRequest,
                      Event.output "sleep 2; touch /tmp/a", Event.close] } =
        (w2, Managed.file cr2, Outcome.returned
          ({ ResourceExists := true, ResourceUpToDate := true, ConnectionDetails := [] },
            none)) ∧
      cr2.conditions.Carries (Available 9) :=
  ⟨ReliablePathHost.roundTrip _ _ _ (pathClient_model "/tmp/a").1, rfl, rfl,
    Create_then_Observe_exists (external.mk (pathClient "/tmp/a")) "/tmp/a"
      (fun s => "/tmp/a" ∈ s)
      (ReliablePathHost.roundTrip _ _ _ (pathClient_model "/tmp/a").1) fileA rfl
      (world0 []) _ _ _ 9 rfl⟩

/-- Scenario A, evaluated: with `forProvider.file = "/tmp/a"`, no prior status and the path
absent, Observe reports absence, Create runs "sleep 2; touch /tmp/a" and the only
condition becomes Creating, and the next Observe reports presence and the only condition
becomes Available. -/
theorem ScenarioA :
    ((external.mk (pathClient "/tmp/a")).Observe (Managed.file fileA) (world0 [])).2.2 =
        Outcome.returned ({ ResourceExists := false }, none) ∧
      commandsRun ((external.mk (pathClient "/tmp/a")).Create (Managed.file fileA)
        (world0 [])).1.trace = ["sleep 2; touch /tmp/a"] ∧
      ((external.mk (pathClient "/tmp/a")).Create (Managed.file fileA) (world0 [])).2.1 =
        Managed.file { fileA with Status :=
          { ResourceStatus := { ConditionedStatus := { Conditions := [Creating 5] } },
            AtProvider := { Status := "" } } } ∧
      ((external.mk (pathClient "/tmp/a")).Observe
          ((external.mk (pathClient "/tmp/a")).Create (Managed.file fileA) (world0 [])).2.1
          { ((external.mk (pathClient "/tmp/a")).Create (Managed.file fileA) (world0 [])).1
            with clock := 9 }).2 =
        (Managed.file { fileA with Status :=
          { ResourceStatus := { ConditionedStatus := { Conditions := [Available 9] } },
            AtProvider := { Status := "Available" } } },
         Outcome.returned
          ({ ResourceExists := true, ResourceUpToDate := true, ConnectionDetails := [] },
            none)) := by
  refine ⟨?_, ?_, ?_, ?_⟩ <;> decide

end ProviderSSH
